import Mathlib

/-!
# Verification of the dtype introspection and promotion engine

A shallow embedding of `src/array_api_stubs/_draft/data_type_functions.py`.
The repository ships only declarations with documentation (stub functions
whose bodies are docstrings); the executable behaviour is therefore
modelled from the specification text (the docstrings together with the
design document), and each definition's doc comment records that.
-/

set_option maxRecDepth 4000

namespace ArrayAPI

/-- Modelled from the spec: the registry of supported data types
(section 3, "DType Registry"; the dtype set of the array API standard
referenced by the docstrings). -/
inductive DType
  | bool
  | int8 | int16 | int32 | int64
  | uint8 | uint16 | uint32 | uint64
  | float32 | float64
  | complex64 | complex128
deriving DecidableEq, Repr, Fintype

/-- Modelled from the spec: the five primitive dtype kinds
(`kind ∈ {bool, signed-integer, unsigned-integer, real-floating,
complex-floating}`). -/
inductive Kind
  | bool
  | signedInteger
  | unsignedInteger
  | realFloating
  | complexFloating
deriving DecidableEq, Repr, Fintype

/-- Modelled from the spec: each dtype's `kind` attribute. -/
def DType.kind : DType → Kind
  | .bool => .bool
  | .int8 | .int16 | .int32 | .int64 => .signedInteger
  | .uint8 | .uint16 | .uint32 | .uint64 => .unsignedInteger
  | .float32 | .float64 => .realFloating
  | .complex64 | .complex128 => .complexFloating

/-- Modelled from the spec: each dtype's `bit_width` attribute
(total storage bits). -/
def DType.bits : DType → Nat
  | .bool => 8
  | .int8 | .uint8 => 8
  | .int16 | .uint16 => 16
  | .int32 | .uint32 => 32
  | .int64 | .uint64 => 64
  | .float32 => 32
  | .float64 => 64
  | .complex64 => 64
  | .complex128 => 128

/-- Modelled from the spec: the `component_dtype` attribute — for a
complex-floating dtype, the real-valued floating dtype sharing its
precision; otherwise none. -/
def componentDType : DType → Option DType
  | .complex64 => some .float32
  | .complex128 => some .float64
  | _ => none

/-- The signed-integer dtype of a given bit width, when registered. -/
def signedOf : Nat → Option DType
  | 8 => some .int8
  | 16 => some .int16
  | 32 => some .int32
  | 64 => some .int64
  | _ => none

/-- The unsigned-integer dtype of a given bit width, when registered. -/
def unsignedOf : Nat → Option DType
  | 8 => some .uint8
  | 16 => some .uint16
  | 32 => some .uint32
  | 64 => some .uint64
  | _ => none

/-- The real-floating dtype of a given bit width, when registered. -/
def realOf : Nat → Option DType
  | 32 => some .float32
  | 64 => some .float64
  | _ => none

/-- The complex-floating dtype of a given bit width, when registered. -/
def complexOf : Nat → Option DType
  | 64 => some .complex64
  | 128 => some .complex128
  | _ => none

/-- Modelled from the spec: promotion of a signed integer of width `s`
with an unsigned integer of width `u` under the default promotion graph.
The unsigned operand is absorbed when strictly narrower; otherwise the
next wider signed type is taken; a 64-bit unsigned operand has no
promotion with any signed type. -/
def mixedIntPromote (s u : Nat) : Option DType :=
  if u < s then signedOf s
  else if u < 64 then signedOf (2 * u)
  else none

/-- Modelled from the spec: the default (full, device-independent)
promotion graph — the partial map `(A, B) → C` of section 3
("PromotionGraph") and the type-promotion rules referenced by the
docstrings.  Mixed-kind pairs such as integer × floating are absent
(`none`), as the spec explicitly allows. -/
def promote (a b : DType) : Option DType :=
  match a.kind, b.kind with
  | .bool, .bool => some .bool
  | .signedInteger, .signedInteger => signedOf (max a.bits b.bits)
  | .unsignedInteger, .unsignedInteger => unsignedOf (max a.bits b.bits)
  | .signedInteger, .unsignedInteger => mixedIntPromote a.bits b.bits
  | .unsignedInteger, .signedInteger => mixedIntPromote b.bits a.bits
  | .realFloating, .realFloating => realOf (max a.bits b.bits)
  | .complexFloating, .complexFloating => complexOf (max a.bits b.bits)
  | .realFloating, .complexFloating => complexOf (max (2 * a.bits) b.bits)
  | .complexFloating, .realFloating => complexOf (max a.bits (2 * b.bits))
  | _, _ => none

/-- Modelled from the spec: the "safe widening" ordering of the
promotion graph (section 4.3) — whether casting `a` to `b` only widens
within the graph: same-kind widening, a strictly wider signed type
absorbing an unsigned one, and a real-floating type widening into a
complex type of at least twice its width. -/
def safeWidens (a b : DType) : Bool :=
  match a.kind, b.kind with
  | .bool, .bool => true
  | .signedInteger, .signedInteger => a.bits ≤ b.bits
  | .unsignedInteger, .unsignedInteger => a.bits ≤ b.bits
  | .unsignedInteger, .signedInteger => a.bits < b.bits
  | .realFloating, .realFloating => a.bits ≤ b.bits
  | .realFloating, .complexFloating => 2 * a.bits ≤ b.bits
  | .complexFloating, .complexFloating => a.bits ≤ b.bits
  | _, _ => false

/-- Modelled from the spec: `can_cast(from_, to)` on dtypes — whether
the cast can occur according to the complete type promotion rules,
i.e. the safe-widening ordering of the default promotion graph.
(When `from_` is an array, its dtype is consulted against the array
device's graph; the claims examined here concern the default graph.) -/
def can_cast (from_ to_ : DType) : Bool :=
  safeWidens from_ to_

/-- Error conditions of the core (section 7): invalid argument and
type incompatibility. -/
inductive Err
  | invalidArgument
  | typeIncompatibility
deriving DecidableEq, Repr

instance {ε α : Type} [DecidableEq ε] [DecidableEq α] :
    DecidableEq (Except ε α) := fun a b =>
  match a, b with
  | .error e, .error f =>
      if h : e = f then .isTrue (congrArg Except.error h)
      else .isFalse (fun hh => h (Except.error.inj hh))
  | .ok x, .ok y =>
      if h : x = y then .isTrue (congrArg Except.ok h)
      else .isFalse (fun hh => h (Except.ok.inj hh))
  | .error _, .ok _ => .isFalse (fun hh => Except.noConfusion hh)
  | .ok _, .error _ => .isFalse (fun hh => Except.noConfusion hh)

/-- Modelled from the spec: an argument to `result_type` — an array
(contributing its dtype; the device-scoped graph selection is elided,
the claims examined here concerning the default graph), a bare dtype,
or a Python scalar of one of the four scalar categories. -/
inductive RTArg
  | arrayArg (dt : DType)
  | dtypeArg (dt : DType)
  | boolScalar
  | intScalar
  | floatScalar
  | complexScalar
deriving DecidableEq, Repr

/-- The dtype an argument resolves to: arrays and dtypes resolve,
scalars do not. -/
def argDType : RTArg → Option DType
  | .arrayArg dt => some dt
  | .dtypeArg dt => some dt
  | _ => none

/-- Modelled from the spec: the total pairwise reduction used by
`result_type`.  For pairs absent from the promotion graph the result is
implementation-defined but must be a valid dtype, never a failure
(section 4.2); this model keeps the left operand as its documented
deterministic choice. -/
def promoteTotal (a b : DType) : DType :=
  (promote a b).getD a

/-- Modelled from the spec: `result_type(*args)` — at least one argument
must resolve to an array or a dtype, otherwise the call fails with an
invalid-argument condition; otherwise the resolved dtypes are reduced
pairwise through the promotion graph.  Scalar arguments never satisfy
the at-least-one requirement; their influence on the promoted dtype is
implementation-specific and elided here. -/
def result_type (args : List RTArg) : Except Err DType :=
  match args.filterMap argDType with
  | [] => .error .invalidArgument
  | d :: rest => .ok (rest.foldl promoteTotal d)

/-- Modelled from the spec: the fixed vocabulary of kind names accepted
by `isdtype` (section 6).  Unrecognized strings fail with an
invalid-argument condition and are not modelled. -/
inductive KindName
  | boolName
  | signedIntegerName
  | unsignedIntegerName
  | integralName
  | realFloatingName
  | complexFloatingName
  | numericName
deriving DecidableEq, Repr, Fintype

/-- An element of a tuple kind specifier: a concrete dtype or a kind
name. -/
inductive KindElem
  | dt (d : DType)
  | name (k : KindName)
deriving DecidableEq, Repr

/-- Modelled from the spec: the `kind` parameter of `isdtype` — a dtype,
a kind name, or a tuple of either. -/
inductive KindSpec
  | dt (d : DType)
  | name (k : KindName)
  | tuple (ks : List KindElem)
deriving DecidableEq, Repr

/-- Modelled from the spec: whether a dtype is of a named kind.  The
compound names expand before comparison: integral is shorthand for
(signed integer, unsigned integer); numeric is shorthand for
(integral, real floating, complex floating). -/
def matchesName (d : DType) : KindName → Bool
  | .boolName => d.kind == .bool
  | .signedIntegerName => d.kind == .signedInteger
  | .unsignedIntegerName => d.kind == .unsignedInteger
  | .integralName => d.kind == .signedInteger || d.kind == .unsignedInteger
  | .realFloatingName => d.kind == .realFloating
  | .complexFloatingName => d.kind == .complexFloating
  | .numericName =>
      d.kind == .signedInteger || d.kind == .unsignedInteger
        || d.kind == .realFloating || d.kind == .complexFloating

/-- Whether a dtype matches one element of a tuple kind specifier:
equality for a concrete dtype, kind membership for a name. -/
def matchElem (d : DType) : KindElem → Bool
  | .dt d2 => d == d2
  | .name k => matchesName d k

/-- Modelled from the spec: `isdtype(dtype, kind)` — dtype-to-dtype
match is equality, a kind name matches by (expanded) kind, and a tuple
matches iff the dtype matches at least one element. -/
def isdtype (d : DType) : KindSpec → Bool
  | .dt d2 => d == d2
  | .name k => matchesName d k
  | .tuple ks => ks.any (matchElem d)

/-- Modelled from the spec: the machine-limits record returned by
`finfo`.  Floating-point limits are represented by their exact rational
values. -/
structure FInfo where
  bits : Nat
  eps : ℚ
  max : ℚ
  min : ℚ
  smallest_normal : ℚ
  dtype : DType
deriving DecidableEq, Repr

/-- Modelled from the spec: the machine-limits record returned by
`iinfo`. -/
structure IInfo where
  bits : Nat
  max : Int
  min : Int
  dtype : DType
deriving DecidableEq, Repr

/-- The IEEE-754 binary32 limits record. -/
def float32Info : FInfo :=
  { bits := 32
    eps := 1 / 2 ^ 23
    max := (2 - 1 / 2 ^ 23) * 2 ^ 127
    min := -((2 - 1 / 2 ^ 23) * 2 ^ 127)
    smallest_normal := 1 / 2 ^ 126
    dtype := .float32 }

/-- The IEEE-754 binary64 limits record. -/
def float64Info : FInfo :=
  { bits := 64
    eps := 1 / 2 ^ 52
    max := (2 - 1 / 2 ^ 52) * 2 ^ 1023
    min := -((2 - 1 / 2 ^ 52) * 2 ^ 1023)
    smallest_normal := 1 / 2 ^ 1022
    dtype := .float64 }

/-- Modelled from the spec: `finfo(type)` — requires a real- or
complex-floating dtype, otherwise fails with an invalid-argument
condition; for a complex-floating input the returned record describes
its real/imaginary component dtype. -/
def finfo (t : DType) : Except Err FInfo :=
  match t with
  | .float32 => .ok float32Info
  | .float64 => .ok float64Info
  | .complex64 => .ok float32Info
  | .complex128 => .ok float64Info
  | _ => .error .invalidArgument

/-- The `dtype` field of a successful `finfo` result, when any. -/
def finfoDtype (e : Except Err FInfo) : Option DType :=
  match e with
  | .ok r => some r.dtype
  | .error _ => none

/-- Modelled from the spec: `iinfo(type)` — requires an integer dtype
(signed or unsigned), otherwise fails with an invalid-argument
condition. -/
def iinfo (t : DType) : Except Err IInfo :=
  match t with
  | .int8 => .ok ⟨8, 127, -128, .int8⟩
  | .int16 => .ok ⟨16, 32767, -32768, .int16⟩
  | .int32 => .ok ⟨32, 2147483647, -2147483648, .int32⟩
  | .int64 => .ok ⟨64, 9223372036854775807, -9223372036854775808, .int64⟩
  | .uint8 => .ok ⟨8, 255, 0, .uint8⟩
  | .uint16 => .ok ⟨16, 65535, 0, .uint16⟩
  | .uint32 => .ok ⟨32, 4294967295, 0, .uint32⟩
  | .uint64 => .ok ⟨64, 18446744073709551615, 0, .uint64⟩
  | _ => .error .invalidArgument

/-- Modelled from the spec: a device-context identifier. -/
inductive Device
  | host
  | accel (n : Nat)
deriving DecidableEq, Repr

/-- Modelled from the spec: an element value as seen by the casting
engine — a boolean, an integer, a real number (the model uses exact
rationals; the floating-point representation itself is a backend
concern), or a complex number given by its two components. -/
inductive Value
  | bool (b : Bool)
  | int (i : Int)
  | real (q : ℚ)
  | complex (re im : ℚ)
deriving DecidableEq, Repr

/-- Modelled from the spec: an array as the casting engine sees it —
a dtype, the element values, and the device the array resides on.
Storage layout is out of scope. -/
structure Arr where
  dtype : DType
  data : List Value
  device : Device
deriving DecidableEq, Repr

/-- Truncation toward zero of a rational number, the model's documented
implementation-defined choice for real-to-integral casts. -/
def truncQ (q : ℚ) : Int :=
  q.num / (q.den : Int)

/-- Modelled from the spec: per-element value conversion of the casting
engine, carrying the mandated edge cases — booleans cast to 0/1 in every
numeric kind, numeric values cast to bool by comparison with zero, and a
complex value casts to bool by comparison with 0+0i.  Width adjustments
inside a kind are the backend's concern and leave the value unchanged;
the forbidden complex-to-real direction is rejected by `astype` before
any value conversion, so its branch below is never reached. -/
def castValue (v : Value) (dt : DType) : Value :=
  match v, dt.kind with
  | .bool b, .bool => .bool b
  | .bool b, .signedInteger => .int (cond b 1 0)
  | .bool b, .unsignedInteger => .int (cond b 1 0)
  | .bool b, .realFloating => .real (cond b 1 0)
  | .bool b, .complexFloating => .complex (cond b 1 0) 0
  | .int i, .bool => .bool (decide (i ≠ 0))
  | .int i, .signedInteger => .int i
  | .int i, .unsignedInteger => .int i
  | .int i, .realFloating => .real i
  | .int i, .complexFloating => .complex i 0
  | .real q, .bool => .bool (decide (q ≠ 0))
  | .real q, .signedInteger => .int (truncQ q)
  | .real q, .unsignedInteger => .int (truncQ q)
  | .real q, .realFloating => .real q
  | .real q, .complexFloating => .complex q 0
  | .complex re im, .bool => .bool (decide (re ≠ 0 ∨ im ≠ 0))
  | .complex re im, _ => .complex re im

/-- The outcome of a successful `astype` call: either the identical
input object (no allocation) or a newly allocated array. -/
inductive AstypeResult
  | same (x : Arr)
  | fresh (x : Arr)
deriving DecidableEq, Repr

/-- Modelled from the spec: `astype(x, dtype, copy, device)` (section
4.5).  Casting a complex-floating array to a real-valued dtype (integer
or real-floating) fails with a type-incompatibility condition; with
`copy = false`, a matching dtype and no different device requested, the
input object itself is returned; otherwise a newly allocated array is
returned whose elements are the converted values, placed on the
requested device (or the input's device when none is given). -/
def astype (x : Arr) (dt : DType) (copy : Bool) (dev : Option Device) :
    Except Err AstypeResult :=
  if x.dtype.kind = .complexFloating ∧
      (dt.kind = .signedInteger ∨ dt.kind = .unsignedInteger ∨
        dt.kind = .realFloating) then
    .error .typeIncompatibility
  else if copy = false ∧ dt = x.dtype ∧ (dev = none ∨ dev = some x.device) then
    .ok (.same x)
  else
    .ok (.fresh { dtype := dt
                  data := x.data.map (castValue · dt)
                  device := dev.getD x.device })

/-- Modelled from the spec: `finfo` applied to an array consults the
array's dtype. -/
def finfoOf (x : Arr) : Except Err FInfo :=
  finfo x.dtype

/-- C1: for every dtype pair in the default promotion graph,
`can_cast(from_, to)` is true exactly when `result_type(from_, to) = to`;
in particular casts that would lose precision or range, such as
float64 → float32 or int64 → int32, return false. -/
theorem can_cast_iff_result_type :
    ∀ a b : DType,
      ((can_cast a b = true) ↔ result_type [.dtypeArg a, .dtypeArg b] = .ok b)
      ∧ can_cast .float64 .float32 = false ∧ can_cast .int64 .int32 = false := by
  decide

/-- C2: the promotion relation computed by `result_type` is reflexive
(`result_type(A, A) = A`) and, whenever the promotion of the pair is
defined in the graph, commutative — argument order does not affect the
result. -/
theorem result_type_refl_comm :
    (∀ a : DType, result_type [.dtypeArg a, .dtypeArg a] = .ok a)
  ∧ (∀ a b : DType, (promote a b).isSome = true →
      result_type [.dtypeArg a, .dtypeArg b]
        = result_type [.dtypeArg b, .dtypeArg a]) := by
  decide

/-- Witness for C2 at int8/uint16. -/
theorem result_type_refl_comm_witness :
    result_type [.dtypeArg .int8, .dtypeArg .uint16]
      = result_type [.dtypeArg .uint16, .dtypeArg .int8] :=
  result_type_refl_comm.2 .int8 .uint16 (by decide)

/-- Counterexample to C3 as stated: casting a complex array to the bool
dtype does not fail; the edge-case table of the casting engine specifies
complex-to-bool conversion values, so bool is not among the forbidden
real-valued targets. -/
theorem astype_complex_to_bool_succeeds :
    astype ⟨.complex128, [.complex 1 2, .complex 0 0], .host⟩ .bool true none
      = .ok (.fresh ⟨.bool, [.bool true, .bool false], .host⟩) := by
  decide

/-- C3 (amended): for every complex-floating dtype and every integer or
real-floating target dtype, `astype` fails with a type-incompatibility
condition, for any copy flag and device request; the imaginary component
is never silently discarded. -/
theorem astype_complex_to_real_fails :
    ∀ (x : Arr) (dt : DType) (copy : Bool) (dev : Option Device),
      x.dtype.kind = .complexFloating →
      (dt.kind = .signedInteger ∨ dt.kind = .unsignedInteger ∨
        dt.kind = .realFloating) →
      astype x dt copy dev = .error .typeIncompatibility := by
  intro x dt copy dev hx hdt
  unfold astype
  rw [if_pos ⟨hx, hdt⟩]

/-- Witness for the amended C3: a concrete complex64 array cast to
int32. -/
theorem astype_complex_to_real_fails_witness :
    astype ⟨.complex64, [.complex 1 0], .host⟩ .int32 true none
      = .error .typeIncompatibility :=
  astype_complex_to_real_fails ⟨.complex64, [.complex 1 0], .host⟩ .int32
    true none (by decide) (by decide)

/-- C4: `astype` converts every element of the input array through the
value-conversion table, and that table maps booleans to 0/1 in every
numeric kind (with a zero imaginary component for complex targets),
real numeric values to bool by comparison with zero, and complex values
to bool by comparison with 0+0i. -/
theorem astype_value_conversions :
    (∀ (x : Arr) (dt : DType) (y : Arr),
        astype x dt true none = .ok (.fresh y) →
        y.data = x.data.map (castValue · dt))
  ∧ (∀ (b : Bool) (dt : DType),
        dt.kind = .signedInteger ∨ dt.kind = .unsignedInteger →
        castValue (.bool b) dt = .int (cond b 1 0))
  ∧ (∀ (b : Bool) (dt : DType), dt.kind = .realFloating →
        castValue (.bool b) dt = .real (cond b 1 0))
  ∧ (∀ (b : Bool) (dt : DType), dt.kind = .complexFloating →
        castValue (.bool b) dt = .complex (cond b 1 0) 0)
  ∧ (∀ i : Int, castValue (.int i) .bool = .bool (decide (i ≠ 0)))
  ∧ (∀ q : ℚ, castValue (.real q) .bool = .bool (decide (q ≠ 0)))
  ∧ (∀ re im : ℚ, castValue (.complex re im) .bool
        = .bool (decide (re ≠ 0 ∨ im ≠ 0))) := by
  refine ⟨?_, ?_, ?_, ?_, fun i => rfl, fun q => rfl, fun re im => rfl⟩
  · intro x dt y h
    unfold astype at h
    split at h
    · cases h
    · split at h
      · rename_i hc
        exact absurd hc.1 (by decide)
      · exact (congrArg Arr.data (AstypeResult.fresh.inj (Except.ok.inj h))).symm
  · intro b dt hk
    rcases hk with hk | hk <;> (unfold castValue; rw [hk])
  · intro b dt hk
    unfold castValue
    rw [hk]
  · intro b dt hk
    unfold castValue
    rw [hk]

/-- Witness for C4: a concrete boolean array cast to int32, and the
boolean-to-integer table entry at int32. -/
theorem astype_value_conversions_witness :
    (⟨.int32, [.int 1, .int 0], .host⟩ : Arr).data
      = ([Value.bool true, Value.bool false]).map (castValue · .int32)
    ∧ castValue (.bool true) .int32 = .int (cond true 1 0) :=
  ⟨astype_value_conversions.1 ⟨.bool, [.bool true, .bool false], .host⟩ .int32
      ⟨.int32, [.int 1, .int 0], .host⟩ (by decide),
   astype_value_conversions.2.1 true .int32 (Or.inl (by decide))⟩

/-- C5: `astype` returns the identical input object exactly when
`copy = false`, the requested dtype equals the input's dtype, and no
different device is requested; with `copy = true` a successful call
always yields a newly allocated array, and a successful call requesting
a device different from the input's always yields a newly allocated
array regardless of the copy flag. -/
theorem astype_identity :
    (∀ (x : Arr) (dt : DType) (copy : Bool) (dev : Option Device),
       astype x dt copy dev = .ok (.same x) ↔
         copy = false ∧ dt = x.dtype ∧ (dev = none ∨ dev = some x.device))
  ∧ (∀ (x : Arr) (dt : DType) (dev : Option Device) (r : AstypeResult),
       astype x dt true dev = .ok r → ∃ y, r = .fresh y)
  ∧ (∀ (x : Arr) (dt : DType) (copy : Bool) (d : Device) (r : AstypeResult),
       d ≠ x.device → astype x dt copy (some d) = .ok r →
       ∃ y, r = .fresh y) := by
  refine ⟨?_, ?_, ?_⟩
  · intro x dt copy dev
    constructor
    · intro h
      unfold astype at h
      split at h
      · cases h
      · split at h
        · rename_i hc
          exact hc
        · exact absurd (Except.ok.inj h) (by intro hh; cases hh)
    · rintro ⟨hc, hdt, hdev⟩
      have hneg : ¬(x.dtype.kind = .complexFloating ∧
          (dt.kind = .signedInteger ∨ dt.kind = .unsignedInteger ∨
            dt.kind = .realFloating)) := by
        rintro ⟨h1, h2⟩
        subst hdt
        rcases h2 with h | h | h <;> rw [h1] at h <;> cases h
      unfold astype
      rw [if_neg hneg, if_pos ⟨hc, hdt, hdev⟩]
  · intro x dt dev r h
    unfold astype at h
    split at h
    · cases h
    · split at h
      · rename_i hc
        exact absurd hc.1 (by decide)
      · exact ⟨_, (Except.ok.inj h).symm⟩
  · intro x dt copy d r hne h
    unfold astype at h
    split at h
    · cases h
    · split at h
      · rename_i hc
        rcases hc.2.2 with hh | hh
        · cases hh
        · exact absurd (Option.some.inj hh) hne
      · exact ⟨_, (Except.ok.inj h).symm⟩

/-- Witness for C5: a no-copy same-dtype call returns the identical
object; a cross-device call returns a fresh array. -/
theorem astype_identity_witness :
    (astype ⟨.int32, [.int 5], .host⟩ .int32 false none
       = .ok (.same ⟨.int32, [.int 5], .host⟩))
    ∧ (∃ y, AstypeResult.fresh ⟨.int32, [.int 5], .accel 0⟩ = .fresh y) :=
  ⟨(astype_identity.1 ⟨.int32, [.int 5], .host⟩ .int32 false none).mpr
      ⟨rfl, rfl, Or.inl rfl⟩,
   astype_identity.2.2 ⟨.int32, [.int 5], .host⟩ .int32 false (.accel 0)
      (.fresh ⟨.int32, [.int 5], .accel 0⟩) (by decide) (by decide)⟩

/-- C6: for every registered dtype, the compound kind names expand to
unions before matching — integral equals signed-integer or
unsigned-integer, numeric equals the tuple of integral, real floating
and complex floating — and a tuple kind matches exactly when the dtype
matches at least one of its elements. -/
theorem isdtype_compound :
    (∀ d : DType, isdtype d (.name .integralName)
        = (isdtype d (.name .signedIntegerName)
            || isdtype d (.name .unsignedIntegerName)))
  ∧ (∀ d : DType, isdtype d (.name .numericName)
        = isdtype d (.tuple [.name .integralName, .name .realFloatingName,
            .name .complexFloatingName]))
  ∧ (∀ (d : DType) (ks : List KindElem),
        isdtype d (.tuple ks) = true ↔ ∃ k ∈ ks, matchElem d k = true) :=
  ⟨by decide, by decide, fun d ks => by simp [isdtype, List.any_eq_true]⟩

/-- C7: `result_type` fails with an invalid-argument condition exactly
when no argument resolves to an array or a dtype (zero arguments or
scalars only); as soon as one argument is an array or a dtype the call
succeeds with some dtype. -/
theorem result_type_error_iff :
    (∀ args : List RTArg,
       result_type args = .error .invalidArgument ↔
         ∀ a ∈ args, argDType a = none)
  ∧ (∀ args : List RTArg, (∃ a ∈ args, (argDType a).isSome = true) →
       ∃ d, result_type args = .ok d) := by
  constructor
  · intro args
    unfold result_type
    rcases h : args.filterMap argDType with _ | ⟨d, rest⟩
    · exact iff_of_true rfl (List.filterMap_eq_nil_iff.mp h)
    · constructor
      · intro hh
        exact Except.noConfusion hh
      · intro hall
        have h2 : args.filterMap argDType = [] :=
          List.filterMap_eq_nil_iff.mpr hall
        rw [h2] at h
        cases h
  · rintro args ⟨a, ha, hsome⟩
    rcases h : args.filterMap argDType with _ | ⟨d, rest⟩
    · exfalso
      have h2 := List.filterMap_eq_nil_iff.mp h a ha
      rw [h2] at hsome
      cases hsome
    · exact ⟨rest.foldl promoteTotal d, by unfold result_type; rw [h]⟩

/-- Witness for C7: an int scalar alone fails; adding a float32 dtype
argument succeeds. -/
theorem result_type_error_iff_witness :
    (result_type [.intScalar] = .error .invalidArgument)
    ∧ ∃ d, result_type [.intScalar, .dtypeArg .float32] = .ok d :=
  ⟨(result_type_error_iff.1 [.intScalar]).mpr (by decide),
   result_type_error_iff.2 [.intScalar, .dtypeArg .float32]
     ⟨.dtypeArg .float32, by decide, by decide⟩⟩

/-- C8: for every complex-floating dtype (and every array of such
dtype, whose dtype `finfo` consults), `finfo` returns the record of the
component real-valued floating dtype: its `dtype` field is the
component dtype and every numeric field (bits, eps, max, min,
smallest normal) equals that of the component type. -/
theorem finfo_complex_component :
    (∀ (c comp : DType), componentDType c = some comp →
       c.kind = .complexFloating ∧ comp.kind = .realFloating ∧
       finfo c = finfo comp ∧ finfoDtype (finfo c) = some comp)
  ∧ (∀ x : Arr, finfoOf x = finfo x.dtype) := by
  constructor
  · intro c comp h
    cases c <;> first
      | exact Option.noConfusion h
      | (injection h with h; subst h; exact ⟨rfl, rfl, rfl, rfl⟩)
  · intro x
    rfl

/-- Witness for C8 at complex64, whose component dtype is float32. -/
theorem finfo_complex_component_witness :
    finfo .complex64 = finfo .float32
    ∧ finfoDtype (finfo .complex64) = some .float32 :=
  ⟨(finfo_complex_component.1 .complex64 .float32 rfl).2.2.1,
   (finfo_complex_component.1 .complex64 .float32 rfl).2.2.2⟩

/-- C9: `can_cast` is total over dtype arguments — it always returns a
boolean and never fails — and returns false for every pair absent from
the promotion graph, such as mixed integer/floating pairs. -/
theorem can_cast_total :
    ∀ a b : DType, (can_cast a b = true ∨ can_cast a b = false)
      ∧ (promote a b = none → can_cast a b = false) := by
  decide

/-- Witness for C9 at the mixed-kind pair int32/float64, absent from
the graph. -/
theorem can_cast_total_witness :
    can_cast .int32 .float64 = false :=
  (can_cast_total .int32 .float64).2 (by decide)

/-- C10: the bool dtype is excluded from every compound kind — it
matches neither the numeric kind nor the integral kind. -/
theorem isdtype_bool_excluded :
    isdtype .bool (.name .numericName) = false
    ∧ isdtype .bool (.name .integralName) = false := by
  decide

end ArrayAPI
